import Mathlib

/-!
Shallow embedding of the Beacon identity system.

Sources embedded here:
- `src/lib/crypto.ts`: `deriveKeyPair`, `generateSalt`, `toHex`, `fromHex`,
  and the `ARGON2_CONFIG` constant.  The external primitives (the `argon2id`
  function from hash-wasm, the Ed25519 seeded key generation from
  `@libp2p/crypto/keys`, and the base64 codec from `uint8arrays`) are library
  code outside this repository and are modelled as an abstract parameter
  record `CryptoPrims`; everything the repository itself does around them is
  embedded concretely.
- `src/lib/identity.ts`: `register` and `login`, parametric in the injected
  `lookupFn` / `writeFn` collaborators exactly as in the source; collaborator
  state is threaded explicitly and thrown exceptions are modelled with
  `Except.error`.
- `src/lib/registry.ts`: the `Registry` class over an OrbitDB key-value
  store, modelled as an association list, with `Option Store` standing for
  the nullable `db` field (`none` = not initialized, where the source
  throws).
- `src/hooks/useIdentity.ts` (concatenated into `App.tsx` here): the hook's
  `login` / `register` / `logout` wiring of session identity state.

Bytes are `Nat` lists (each entry a byte value); the random source used by
`generateSalt` is an explicit byte stream parameter.
-/

namespace Beacon

/-- KeyPair from crypto.ts: raw public and private key bytes. -/
structure KeyPair where
  publicKey : List Nat
  privateKey : List Nat
deriving DecidableEq

/-- RegistryEntry from types/identity.ts. -/
structure RegistryEntry where
  publicKey : String
  salt : String
  profileCid : Option String
  createdAt : Nat
deriving DecidableEq

/-- IdentityState from lib/identity.ts. -/
structure IdentityState where
  username : String
  keyPair : KeyPair
  publicKeyHex : String
deriving DecidableEq

/-- Result from types/identity.ts: ok-with-value or failure-with-error. -/
inductive Result (T E : Type) where
  | ok (value : T)
  | err (error : E)
deriving DecidableEq

/-- Lowercase hex digit for a value below 16 (crypto.ts uses base16 output). -/
def hexDigit (n : Nat) : Char :=
  if n < 10 then Char.ofNat (48 + n) else Char.ofNat (87 + n)

/-- Two lowercase hex characters for one byte. -/
def byteToHex (b : Nat) : String :=
  String.mk [hexDigit (b / 16 % 16), hexDigit (b % 16)]

/-- toHex from crypto.ts: bytes to lowercase base16 string. -/
def toHex (bytes : List Nat) : String :=
  String.join (bytes.map byteToHex)

/-- Value of a single hex character. -/
def hexVal (ch : Char) : Nat :=
  if 48 ≤ ch.toNat ∧ ch.toNat ≤ 57 then ch.toNat - 48
  else if 97 ≤ ch.toNat ∧ ch.toNat ≤ 102 then ch.toNat - 87
  else if 65 ≤ ch.toNat ∧ ch.toNat ≤ 70 then ch.toNat - 55
  else 0

/-- Consume hex characters two at a time into bytes. -/
def hexPairsToBytes : List Char → List Nat
  | c1 :: c2 :: rest => (hexVal c1 * 16 + hexVal c2) :: hexPairsToBytes rest
  | _ => []

/-- fromHex from crypto.ts: base16 string to bytes. -/
def fromHex (s : String) : List Nat := hexPairsToBytes s.data

/-- UTF-8 bytes of one unicode scalar value (TextEncoder semantics). -/
def utf8Bytes (c : Char) : List Nat :=
  let n := c.toNat
  if n < 128 then [n]
  else if n < 2048 then [192 + n / 64, 128 + n % 64]
  else if n < 65536 then [224 + n / 4096, 128 + n / 64 % 64, 128 + n % 64]
  else [240 + n / 262144, 128 + n / 4096 % 64, 128 + n / 64 % 64, 128 + n % 64]

/-- TextEncoder().encode: UTF-8 bytes of a string. -/
def utf8Encode (s : String) : List Nat := (s.data.map utf8Bytes).flatten

/-- The parameter record passed to argon2id in crypto.ts. -/
structure Argon2Config where
  parallelism : Nat
  iterations : Nat
  memorySize : Nat
  hashLength : Nat
deriving DecidableEq

/-- ARGON2_CONFIG from crypto.ts: the compile-time constant parameter set. -/
def ARGON2_CONFIG : Argon2Config := ⟨1, 2, 4096, 32⟩

/-- External cryptographic primitives used by crypto.ts, as abstract
deterministic functions: argon2id over (password bytes, salt bytes, config)
returning a hex string, Ed25519 seeded keypair generation, and the base64
codec from uint8arrays. -/
structure CryptoPrims where
  argon2id : List Nat → List Nat → Argon2Config → String
  generateKeyPairFromSeed : List Nat → KeyPair
  base64Encode : List Nat → String
  base64Decode : String → List Nat

/-- deriveKeyPair from crypto.ts: decode the salt from base64, UTF-8 encode
the password, hash with argon2id under ARGON2_CONFIG, decode the hex digest
into the seed, and generate the Ed25519 keypair from the seed.  The username
parameter is accepted and ignored, exactly as in the source. -/
def deriveKeyPair (c : CryptoPrims) (_username password salt : String) : KeyPair :=
  let saltBytes := c.base64Decode salt
  let passwordBytes := utf8Encode password
  let hashHex := c.argon2id passwordBytes saltBytes ARGON2_CONFIG
  let seed := fromHex hashHex
  c.generateKeyPairFromSeed seed

/-- The 16 random bytes drawn by generateSalt (crypto.getRandomValues over a
fresh Uint8Array of length 16), as a function of the random stream. -/
def saltRandomBytes (rng : Nat → Nat) : List Nat :=
  (List.range 16).map (fun i => rng i % 256)

/-- generateSalt from crypto.ts: base64 encoding of 16 random bytes. -/
def generateSalt (c : CryptoPrims) (rng : Nat → Nat) : String :=
  c.base64Encode (saltRandomBytes rng)

/-- The OrbitDB key-value store held by the Registry, as an association
list from usernames to entries (most recent put first). -/
abbrev Store := List (String × RegistryEntry)

/-- db.get: first entry for the key, if any. -/
def storeGet (db : Store) (k : String) : Option RegistryEntry :=
  Option.map Prod.snd (db.find? (fun p => p.1 == k))

/-- db.put: record the value for the key. -/
def storePut (db : Store) (k : String) (v : RegistryEntry) : Store :=
  (k, v) :: db

/-- Registry.lookup from registry.ts: throws 'Registry not initialized' when
the db field is null, otherwise reads the store. -/
def Registry.lookup (db : Option Store) (username : String) :
    Except String (Option RegistryEntry) :=
  match db with
  | none => Except.error "Registry not initialized"
  | some s => Except.ok (storeGet s username)

/-- Registry.register from registry.ts: throws when uninitialized; returns
false (store unchanged) when the key already exists, otherwise puts the
entry and returns true. -/
def Registry.register (db : Option Store) (username : String)
    (entry : RegistryEntry) : Except String (Bool × Store) :=
  match db with
  | none => Except.error "Registry not initialized"
  | some s =>
    match storeGet s username with
    | some _ => Except.ok (false, s)
    | none => Except.ok (true, storePut s username entry)

/-- register from identity.ts, parametric in the injected collaborators
exactly as in the source.  The collaborator state S is threaded explicitly;
the fresh salt produced by generateSalt and the Date.now() timestamp enter
as parameters since they are drawn from the environment.  There is no
exception handling in the source, so collaborator errors propagate. -/
def register {S : Type} (c : CryptoPrims) (salt : String) (now : Nat)
    (lookupFn : String → S → Except String (Option RegistryEntry × S))
    (writeFn : String → RegistryEntry → S → Except String (Bool × S))
    (username password : String) (s0 : S) :
    Except String (Result IdentityState String × S) :=
  match lookupFn username s0 with
  | Except.error e => Except.error e
  | Except.ok (some _, s1) => Except.ok (Result.err "Username already taken", s1)
  | Except.ok (none, s1) =>
    let keyPair := deriveKeyPair c username password salt
    let publicKeyHex := toHex keyPair.publicKey
    let entry : RegistryEntry := ⟨publicKeyHex, salt, none, now⟩
    match writeFn username entry s1 with
    | Except.error e => Except.error e
    | Except.ok (true, s2) =>
      Except.ok (Result.ok ⟨username, keyPair, publicKeyHex⟩, s2)
    | Except.ok (false, s2) =>
      Except.ok (Result.err "Failed to register (username may have been claimed)", s2)

/-- login from identity.ts, parametric in the injected lookup collaborator.
No exception handling in the source, so collaborator errors propagate. -/
def login {S : Type} (c : CryptoPrims)
    (lookupFn : String → S → Except String (Option RegistryEntry × S))
    (username password : String) (s0 : S) :
    Except String (Result IdentityState String × S) :=
  match lookupFn username s0 with
  | Except.error e => Except.error e
  | Except.ok (none, s1) => Except.ok (Result.err "Username not found", s1)
  | Except.ok (some entry, s1) =>
    let keyPair := deriveKeyPair c username password entry.salt
    let publicKeyHex := toHex keyPair.publicKey
    if publicKeyHex = entry.publicKey then
      Except.ok (Result.ok ⟨username, keyPair, publicKeyHex⟩, s1)
    else
      Except.ok (Result.err "Invalid password", s1)

/-- The lookup collaborator the useIdentity hook injects:
(u) => registry.lookup(u). -/
def registryLookupFn (username : String) (db : Option Store) :
    Except String (Option RegistryEntry × Option Store) :=
  match Registry.lookup db username with
  | Except.error e => Except.error e
  | Except.ok r => Except.ok (r, db)

/-- The write collaborator the useIdentity hook injects:
(u, e) => registry.register(u, e). -/
def registryWriteFn (username : String) (entry : RegistryEntry)
    (db : Option Store) : Except String (Bool × Option Store) :=
  match Registry.register db username entry with
  | Except.error e => Except.error e
  | Except.ok (b, s) => Except.ok (b, some s)

/-- register wired to the singleton Registry, as the useIdentity hook calls it. -/
def appRegister (c : CryptoPrims) (salt : String) (now : Nat)
    (u p : String) (db : Option Store) :
    Except String (Result IdentityState String × Option Store) :=
  register c salt now registryLookupFn registryWriteFn u p db

/-- login wired to the singleton Registry, as the useIdentity hook calls it. -/
def appLogin (c : CryptoPrims) (u p : String) (db : Option Store) :
    Except String (Result IdentityState String × Option Store) :=
  login c registryLookupFn u p db

/-- The useIdentity hook's login: on a success result store the returned
identity and report ok; on a failure result keep the stored identity
unchanged; exceptions propagate (no catch in the source). -/
def hookLogin (c : CryptoPrims) (ident : Option IdentityState)
    (db : Option Store) (u p : String) :
    Except String (Result Unit String × Option IdentityState) :=
  match appLogin c u p db with
  | Except.error e => Except.error e
  | Except.ok (Result.ok v, _) => Except.ok (Result.ok (), some v)
  | Except.ok (Result.err e, _) => Except.ok (Result.err e, ident)

/-- The useIdentity hook's register: same session-state discipline as login,
also returning the updated registry store. -/
def hookRegister (c : CryptoPrims) (salt : String) (now : Nat)
    (ident : Option IdentityState) (db : Option Store) (u p : String) :
    Except String ((Result Unit String × Option IdentityState) × Option Store) :=
  match appRegister c salt now u p db with
  | Except.error e => Except.error e
  | Except.ok (Result.ok v, db2) => Except.ok ((Result.ok (), some v), db2)
  | Except.ok (Result.err e, db2) => Except.ok ((Result.err e, ident), db2)

/-- The useIdentity hook's logout: unconditionally clears the identity. -/
def hookLogout (_ident : Option IdentityState) : Option IdentityState := none

/-- Concrete instantiation of the external crypto primitives, used to
evaluate the embedding on concrete inputs: an injective stand-in digest,
a stand-in seeded keypair, and a hex-based byte codec. -/
def testPrims : CryptoPrims :=
  ⟨fun pw salt cfg => toHex (pw ++ salt ++ [cfg.hashLength % 256]),
   fun seed => ⟨seed, 0 :: seed⟩,
   toHex,
   fromHex⟩

/-- Keypair derived by the test primitives for the concrete run used below. -/
def kpA : KeyPair := deriveKeyPair testPrims "alice" "a" "AA"

/-- Identity state produced by the concrete successful registration below. -/
def regSt : IdentityState := ⟨"alice", kpA, toHex kpA.publicKey⟩

/-- Registry store after the concrete successful registration below. -/
def regDb : Option Store :=
  some (storePut [] "alice" ⟨toHex kpA.publicKey, "AA", none, 0⟩)

/-- Registry entry used by the concrete login-verification run below. -/
def demoEntry : RegistryEntry := ⟨toHex kpA.publicKey, "AA", none, 0⟩

/-- Store holding demoEntry under "alice". -/
def demoStore : Store := [("alice", demoEntry)]

/-- A lookup collaborator that reports the username as absent. -/
def lookupAbsentU : String → Unit → Except String (Option RegistryEntry × Unit) :=
  fun _ _ => Except.ok (none, ())

/-- A lookup collaborator that reports an existing entry for the username. -/
def lookupFoundU : String → Unit → Except String (Option RegistryEntry × Unit) :=
  fun _ _ => Except.ok (some ⟨"pk", "salt", none, 0⟩, ())

/-- A write collaborator that rejects the claim (models a lost race). -/
def writeRejectU : String → RegistryEntry → Unit → Except String (Bool × Unit) :=
  fun _ _ _ => Except.ok (false, ())

/-- Reading a key just written returns the written entry. -/
theorem storeGet_put_same (s : Store) (k : String) (v : RegistryEntry) :
    storeGet (storePut s k v) k = some v := by
  simp [storeGet, storePut, List.find?]

/-- C2: deriveKeyPair is deterministic — two calls on the same (password,
salt) give identical keypairs — and is independent of the username argument,
which the source ignores. -/
theorem deriveKeyPair_deterministic_username_independent
    (c : CryptoPrims) (u1 u2 p s : String) :
    deriveKeyPair c u1 p s = deriveKeyPair c u1 p s ∧
    deriveKeyPair c u1 p s = deriveKeyPair c u2 p s :=
  ⟨rfl, rfl⟩

/-- C8: the Argon2id parameters are the fixed compile-time constants
parallelism 1, iterations 2, memory cost 4096, output length 32; deriveKeyPair
always passes exactly ARGON2_CONFIG to the hash (the caller supplies no
parameters); and generateSalt encodes exactly 16 random bytes. -/
theorem derivation_parameters_fixed (c : CryptoPrims) (u p s : String)
    (rng : Nat → Nat) :
    ARGON2_CONFIG.parallelism = 1 ∧ ARGON2_CONFIG.iterations = 2 ∧
    ARGON2_CONFIG.memorySize = 4096 ∧ ARGON2_CONFIG.hashLength = 32 ∧
    (saltRandomBytes rng).length = 16 ∧
    generateSalt c rng = c.base64Encode (saltRandomBytes rng) ∧
    deriveKeyPair c u p s =
      c.generateKeyPairFromSeed
        (fromHex (c.argon2id (utf8Encode p) (c.base64Decode s) ARGON2_CONFIG)) :=
  ⟨rfl, rfl, rfl, rfl, by simp [saltRandomBytes], rfl, rfl⟩

/-- C3 counterexample: running register or login against the uninitialized
Registry singleton does not yield a RegistryUnavailable failure result — the
'Registry not initialized' exception propagates to the caller untranslated. -/
theorem collaborator_exception_cex :
    appRegister testPrims "AA" 0 "alice" "pw" none =
      Except.error "Registry not initialized" ∧
    appLogin testPrims "alice" "pw" none =
      Except.error "Registry not initialized" :=
  ⟨rfl, rfl⟩

/-- C3 (amended): register and login contain no exception handling; any
exception thrown by the lookup collaborator propagates unchanged to the
caller, and in particular calling against the uninitialized Registry
surfaces the thrown 'Registry not initialized' error rather than a failure
result. -/
theorem collaborator_exceptions_propagate {S : Type} (c : CryptoPrims)
    (salt : String) (now : Nat) (u p msg : String)
    (writeFn : String → RegistryEntry → S → Except String (Bool × S)) (s0 : S) :
    register c salt now (fun _ _ => Except.error msg) writeFn u p s0 =
      Except.error msg ∧
    login c (fun _ _ => Except.error msg) u p s0 = Except.error msg ∧
    appRegister c salt now u p none = Except.error "Registry not initialized" ∧
    appLogin c u p none = Except.error "Registry not initialized" :=
  ⟨rfl, rfl, rfl, rfl⟩

/-- C4 counterexample: a register that loses the race at the claim step
fails with 'Failed to register (username may have been claimed)', while a
register whose initial lookup finds the username fails with 'Username
already taken' — two distinct external errors, so the caller can
distinguish the lost race from the pre-existing entry. -/
theorem lost_race_error_cex :
    register testPrims "AA" 0 lookupAbsentU writeRejectU "alice" "pw" () =
      Except.ok
        (Result.err "Failed to register (username may have been claimed)", ()) ∧
    register testPrims "AA" 0 lookupFoundU writeRejectU "alice" "pw" () =
      Except.ok (Result.err "Username already taken", ()) ∧
    "Failed to register (username may have been claimed)" ≠
      "Username already taken" :=
  ⟨rfl, rfl, by decide⟩

/-- C4 (amended): both failure paths of register return a failure result,
but with distinct messages: a rejected claim yields 'Failed to register
(username may have been claimed)', while a positive initial lookup yields
'Username already taken'. -/
theorem register_failure_messages {S : Type} (c : CryptoPrims) (salt : String)
    (now : Nat)
    (lookupFn : String → S → Except String (Option RegistryEntry × S))
    (writeFn : String → RegistryEntry → S → Except String (Bool × S))
    (u p : String) (s0 s1 s2 : S) (e : RegistryEntry) :
    (lookupFn u s0 = Except.ok (none, s1) →
      (∀ en, writeFn u en s1 = Except.ok (false, s2)) →
      register c salt now lookupFn writeFn u p s0 =
        Except.ok
          (Result.err "Failed to register (username may have been claimed)", s2)) ∧
    (lookupFn u s0 = Except.ok (some e, s1) →
      register c salt now lookupFn writeFn u p s0 =
        Except.ok (Result.err "Username already taken", s1)) ∧
    "Failed to register (username may have been claimed)" ≠
      "Username already taken" := by
  refine ⟨fun hl hw => ?_, fun hl => ?_, by decide⟩
  · simp [register, hl, hw]
  · simp [register, hl]

/-- C4 witness: the amended theorem evaluated at a concrete lost race and a
concrete positive lookup. -/
theorem register_failure_messages_witness :
    register testPrims "BB" 1 lookupAbsentU writeRejectU "bob" "pw" () =
      Except.ok
        (Result.err "Failed to register (username may have been claimed)", ()) ∧
    register testPrims "BB" 1 lookupFoundU writeRejectU "bob" "pw" () =
      Except.ok (Result.err "Username already taken", ()) :=
  ⟨(register_failure_messages testPrims "BB" 1 lookupAbsentU writeRejectU
      "bob" "pw" () () () ⟨"pk", "salt", none, 0⟩).1 rfl (fun _ => rfl),
   (register_failure_messages testPrims "BB" 1 lookupFoundU writeRejectU
      "bob" "pw" () () () ⟨"pk", "salt", none, 0⟩).2.1 rfl⟩

/-- C7: login on a username with no registry entry fails with 'Username not
found' and not 'Invalid password'; the result is the same for every choice
of crypto primitives and every password, so the failure is decided before
any key derivation enters. -/
theorem login_unknown_username (s : Store) (u : String)
    (hget : storeGet s u = none) (c : CryptoPrims) (p : String) :
    appLogin c u p (some s) =
      Except.ok (Result.err "Username not found", some s) ∧
    "Username not found" ≠ "Invalid password" := by
  refine ⟨?_, by decide⟩
  simp [appLogin, login, registryLookupFn, Registry.lookup, hget]

/-- C7 witness: login for an absent username on the empty store. -/
theorem login_unknown_username_witness :
    storeGet [] "nonexistent" = none ∧
    (appLogin testPrims "nonexistent" "anything" (some []) =
      Except.ok (Result.err "Username not found", some []) ∧
     "Username not found" ≠ "Invalid password") :=
  ⟨rfl, login_unknown_username [] "nonexistent" rfl testPrims "anything"⟩

/-- C9 counterexample: register and login with the empty password are not
rejected — register on a fresh registry succeeds, its keypair is
deriveKeyPair applied to the empty password, and the subsequent login with
the empty password succeeds too, so no empty-password policy runs before
derivation. -/
theorem empty_password_cex :
    appRegister testPrims "AA" 0 "alice" "" (some []) =
      Except.ok
        (Result.ok ⟨"alice", deriveKeyPair testPrims "alice" "" "AA",
            toHex (deriveKeyPair testPrims "alice" "" "AA").publicKey⟩,
         some [("alice",
            ⟨toHex (deriveKeyPair testPrims "alice" "" "AA").publicKey,
             "AA", none, 0⟩)]) ∧
    appLogin testPrims "alice" ""
        (some [("alice",
            ⟨toHex (deriveKeyPair testPrims "alice" "" "AA").publicKey,
             "AA", none, 0⟩)]) =
      Except.ok
        (Result.ok ⟨"alice", deriveKeyPair testPrims "alice" "" "AA",
            toHex (deriveKeyPair testPrims "alice" "" "AA").publicKey⟩,
         some [("alice",
            ⟨toHex (deriveKeyPair testPrims "alice" "" "AA").publicKey,
             "AA", none, 0⟩)]) := by
  constructor
  · rfl
  · simp [appLogin, login, registryLookupFn, Registry.lookup, storeGet]

/-- C9 (amended): register and login perform no empty-password validation:
the empty password is passed straight to deriveKeyPair (which itself has no
validation) and the operations proceed by the ordinary lookup and claim
conditions — register on a fresh registry with the empty password succeeds,
storing the key derived from the empty password. -/
theorem empty_password_not_rejected (c : CryptoPrims) (salt : String)
    (now : Nat) (u : String) :
    appRegister c salt now u "" (some []) =
      Except.ok
        (Result.ok ⟨u, deriveKeyPair c u "" salt,
            toHex (deriveKeyPair c u "" salt).publicKey⟩,
         some [(u, ⟨toHex (deriveKeyPair c u "" salt).publicKey,
                    salt, none, now⟩)]) :=
  rfl

/-- C1: if register(u, p) succeeds against the registry, an immediately
following login(u, p) on the resulting registry state succeeds and returns
an IdentityState whose publicKeyHex equals the one register returned. -/
theorem register_login_roundtrip (c : CryptoPrims) (salt : String) (now : Nat)
    (u p : String) (db db2 : Option Store) (st : IdentityState)
    (h : appRegister c salt now u p db = Except.ok (Result.ok st, db2)) :
    ∃ st2 : IdentityState,
      appLogin c u p db2 = Except.ok (Result.ok st2, db2) ∧
      st2.publicKeyHex = st.publicKeyHex := by
  cases db with
  | none => simp [appRegister, register, registryLookupFn, Registry.lookup] at h
  | some s =>
    cases hg : storeGet s u with
    | some e =>
      simp [appRegister, register, registryLookupFn, Registry.lookup, hg] at h
    | none =>
      simp [appRegister, register, registryLookupFn, registryWriteFn,
            Registry.lookup, Registry.register, hg] at h
      obtain ⟨rfl, rfl⟩ := h
      refine ⟨_, ?_, rfl⟩
      simp [appLogin, login, registryLookupFn, Registry.lookup, storeGet_put_same]

/-- C1 witness: a concrete successful registration followed by login. -/
theorem register_login_roundtrip_witness :
    appRegister testPrims "AA" 0 "alice" "a" (some []) =
      Except.ok (Result.ok regSt, regDb) ∧
    ∃ st2 : IdentityState,
      appLogin testPrims "alice" "a" regDb = Except.ok (Result.ok st2, regDb) ∧
      st2.publicKeyHex = regSt.publicKeyHex :=
  ⟨rfl,
   register_login_roundtrip testPrims "AA" 0 "alice" "a" (some []) regDb regSt rfl⟩

/-- C5: after a successful register(u, p), a second sequential register of
the same username — with any password, salt, timestamp and crypto engine —
fails with 'Username already taken', returns the registry unchanged, and the
entry written by the first call still holds its original salt and public
key. -/
theorem second_register_fails_unchanged (c c2 : CryptoPrims)
    (salt salt2 : String) (now now2 : Nat) (u p p2 : String)
    (db db2 : Option Store) (st : IdentityState)
    (h : appRegister c salt now u p db = Except.ok (Result.ok st, db2)) :
    appRegister c2 salt2 now2 u p2 db2 =
      Except.ok (Result.err "Username already taken", db2) ∧
    ∃ s2 : Store, db2 = some s2 ∧
      storeGet s2 u = some ⟨st.publicKeyHex, salt, none, now⟩ := by
  cases db with
  | none => simp [appRegister, register, registryLookupFn, Registry.lookup] at h
  | some s =>
    cases hg : storeGet s u with
    | some e =>
      simp [appRegister, register, registryLookupFn, Registry.lookup, hg] at h
    | none =>
      simp [appRegister, register, registryLookupFn, registryWriteFn,
            Registry.lookup, Registry.register, hg] at h
      obtain ⟨rfl, rfl⟩ := h
      refine ⟨?_, _, rfl, ?_⟩
      · simp [appRegister, register, registryLookupFn, Registry.lookup,
              storeGet_put_same]
      · simp [storeGet_put_same]

/-- C5 witness: a concrete registration followed by a second registration of
the same username with a different password. -/
theorem second_register_fails_unchanged_witness :
    appRegister testPrims "AA" 0 "alice" "a" (some []) =
      Except.ok (Result.ok regSt, regDb) ∧
    (appRegister testPrims "BB" 1 "alice" "b" regDb =
        Except.ok (Result.err "Username already taken", regDb) ∧
     ∃ s2 : Store, regDb = some s2 ∧
       storeGet s2 "alice" = some ⟨regSt.publicKeyHex, "AA", none, 0⟩) :=
  ⟨rfl,
   second_register_fails_unchanged testPrims testPrims "AA" "BB" 0 1
     "alice" "a" "b" (some []) regDb regSt rfl⟩

/-- C6: for a username with a stored registry entry, login succeeds exactly
when the hex encoding of the public key derived from the supplied password
and the stored salt equals the stored publicKey, and otherwise fails with
'Invalid password'; in particular any password whose derived public key hex
differs from the stored one (e.g. a wrong password, absent hash collisions)
is rejected with 'Invalid password'. -/
theorem login_verification_condition (c : CryptoPrims) (db : Option Store)
    (s : Store) (u p : String) (entry : RegistryEntry)
    (hdb : db = some s) (hget : storeGet s u = some entry) :
    (appLogin c u p db =
        Except.ok
          (Result.ok ⟨u, deriveKeyPair c u p entry.salt, entry.publicKey⟩, db) ↔
      toHex (deriveKeyPair c u p entry.salt).publicKey = entry.publicKey) ∧
    (toHex (deriveKeyPair c u p entry.salt).publicKey ≠ entry.publicKey →
      appLogin c u p db = Except.ok (Result.err "Invalid password", db)) := by
  subst hdb
  by_cases hc : toHex (deriveKeyPair c u p entry.salt).publicKey = entry.publicKey
  · refine ⟨⟨fun _ => hc, fun _ => ?_⟩, fun hne => absurd hc hne⟩
    simp [appLogin, login, registryLookupFn, Registry.lookup, hget, hc]
  · refine ⟨⟨fun hl => ?_, fun hx => absurd hx hc⟩, fun _ => ?_⟩
    · exfalso
      simp [appLogin, login, registryLookupFn, Registry.lookup, hget, hc] at hl
    · simp [appLogin, login, registryLookupFn, Registry.lookup, hget, hc]

/-- C6 witness: the verification condition evaluated on a concrete stored
entry. -/
theorem login_verification_condition_witness :
    storeGet demoStore "alice" = some demoEntry ∧
    ((appLogin testPrims "alice" "a" (some demoStore) =
        Except.ok
          (Result.ok ⟨"alice", deriveKeyPair testPrims "alice" "a" demoEntry.salt,
              demoEntry.publicKey⟩, some demoStore) ↔
      toHex (deriveKeyPair testPrims "alice" "a" demoEntry.salt).publicKey =
        demoEntry.publicKey) ∧
     (toHex (deriveKeyPair testPrims "alice" "a" demoEntry.salt).publicKey ≠
        demoEntry.publicKey →
      appLogin testPrims "alice" "a" (some demoStore) =
        Except.ok (Result.err "Invalid password", some demoStore))) :=
  ⟨rfl,
   login_verification_condition testPrims (some demoStore) demoStore
     "alice" "a" demoEntry rfl rfl⟩

/-- C10: in the useIdentity hook, a login or register call returning a
failure result leaves the stored session identity exactly as it was, the
identity is replaced only on a success result, and logout unconditionally
clears it. -/
theorem hook_session_state (c : CryptoPrims) (salt : String) (now : Nat)
    (ident : Option IdentityState) (db : Option Store) (u p : String) :
    (∀ e db2, appLogin c u p db = Except.ok (Result.err e, db2) →
      hookLogin c ident db u p = Except.ok (Result.err e, ident)) ∧
    (∀ v db2, appLogin c u p db = Except.ok (Result.ok v, db2) →
      hookLogin c ident db u p = Except.ok (Result.ok (), some v)) ∧
    (∀ e db2, appRegister c salt now u p db = Except.ok (Result.err e, db2) →
      hookRegister c salt now ident db u p =
        Except.ok ((Result.err e, ident), db2)) ∧
    (∀ v db2, appRegister c salt now u p db = Except.ok (Result.ok v, db2) →
      hookRegister c salt now ident db u p =
        Except.ok ((Result.ok (), some v), db2)) ∧
    hookLogout ident = none := by
  refine ⟨fun e db2 h => ?_, fun v db2 h => ?_, fun e db2 h => ?_,
          fun v db2 h => ?_, rfl⟩
  · simp [hookLogin, h]
  · simp [hookLogin, h]
  · simp [hookRegister, h]
  · simp [hookRegister, h]

/-- C10 witness: a concrete failed login keeps the previously stored
identity. -/
theorem hook_session_state_witness :
    appLogin testPrims "nope" "x" (some []) =
      Except.ok (Result.err "Username not found", some []) ∧
    hookLogin testPrims (some regSt) (some []) "nope" "x" =
      Except.ok (Result.err "Username not found", some regSt) :=
  ⟨rfl,
   (hook_session_state testPrims "AA" 0 (some regSt) (some []) "nope" "x").1
     "Username not found" (some []) rfl⟩

end Beacon
